import Mathlib

/-!
# Verification of the polling application's core flows

A shallow embedding of the poll CRUD / vote-submission / results-aggregation
logic of the repository (server actions in `lib/actions`, the API route
handlers under `app/api/polls`, and the SQL schema function
`get_poll_results`), together with theorems settling the specification's
claims about them.

Datastore rows are modelled as records in lists; opaque UUIDs are modelled
as `Nat`; UTC instants as `Int` (epoch milliseconds).  Each remote query the
code issues can fail at the datastore, so every flow takes a record of
fault flags, one per query, and the embedding follows the code's handling
of each error branch.
-/

/-- A row of `public.profiles` (only the id is relevant to the flows). -/
structure Profile where
  id : Nat
  deriving Repr, DecidableEq

/-- A row of `public.polls` (the columns the flows read or write). -/
structure Poll where
  id : Nat
  title : String
  description : Option String
  status : String
  is_public : Bool
  allow_multiple_votes : Bool
  expires_at : Option Int
  created_by : Nat
  deriving Repr, DecidableEq

/-- A row of `public.poll_options`. -/
structure PollOption where
  id : Nat
  poll_id : Nat
  text : String
  order_index : Nat
  deriving Repr, DecidableEq

/-- A row of `public.votes`.  The generated `id` column plays no role in any
flow, so it is omitted; a vote is identified by its position in the list. -/
structure Vote where
  poll_id : Nat
  option_id : Nat
  voter_id : Option Nat
  voter_email : Option String
  voter_name : Option String
  deriving Repr, DecidableEq

/-- The datastore state: the four tables the flows touch, plus a counter
standing for the datastore's id generation (`uuid_generate_v4()`). -/
structure DB where
  profiles : List Profile
  polls : List Poll
  poll_options : List PollOption
  votes : List Vote
  nextId : Nat
  deriving Repr, DecidableEq

/-- `single()` row fetch of a poll by id (`.from('polls').eq('id', pid).single()`). -/
def findPoll (db : DB) (pid : Nat) : Option Poll :=
  db.polls.find? (fun p => p.id == pid)

/-- JavaScript `x || null`: an absent or empty string becomes null. -/
def orNull (s : Option String) : Option String :=
  match s with
  | some t => if t = "" then none else some t
  | none => none

/-- The vote submission payload (`{poll_id, option_ids, voter_name?, voter_email?}`). -/
structure VoteData where
  poll_id : Nat
  option_ids : List Nat
  voter_name : Option String
  voter_email : Option String
  deriving Repr, DecidableEq

/-- Which of the datastore queries issued by `submitVote` fail remotely. -/
structure VoteFaults where
  pollQueryFails : Bool
  optionsQueryFails : Bool
  voteCheckFails : Bool
  insertFails : Bool
  deriving Repr, DecidableEq

/-- The error taxonomy of `submitVote` (one constructor per thrown message). -/
inductive VoteError where
  | notFound
  | pollInactive
  | pollExpired
  | invalidOptions
  | alreadyVoted
  | writeFailed
  deriving Repr, DecidableEq

/-- `poll.expires_at && new Date(poll.expires_at) < new Date()`: strict
comparison of the expiry instant with the current time. -/
def isExpired (e : Option Int) (now : Int) : Bool :=
  match e with
  | some t => decide (t < now)
  | none => false

/-- The option-membership fetch:
`.from('poll_options').select('id').eq('poll_id', ...).in('id', option_ids)`. -/
def fetchedMatchingOptions (db : DB) (vd : VoteData) : List PollOption :=
  db.poll_options.filter (fun o => o.poll_id == vd.poll_id && vd.option_ids.contains o.id)

/-- The duplicate-vote guard: for an authenticated user, count existing votes
by this identity on this poll; a datastore error in the lookup is logged and
ignored; otherwise reject when a vote exists and multi-vote is disabled. -/
def dupRejected (db : DB) (f : VoteFaults) (user : Option Nat) (vd : VoteData)
    (poll : Poll) : Bool :=
  match user with
  | none => false
  | some u =>
    if f.voteCheckFails then false
    else
      let existing := db.votes.filter
        (fun v => v.poll_id == vd.poll_id && v.voter_id == some u)
      decide (0 < existing.length) && !poll.allow_multiple_votes

/-- The vote rows to insert: one per selected option id, carrying the
caller's id (or null) and the `|| null`-coalesced anonymous metadata. -/
def newVoteRows (user : Option Nat) (vd : VoteData) : List Vote :=
  vd.option_ids.map (fun oid =>
    { poll_id := vd.poll_id
      option_id := oid
      voter_id := user
      voter_email := orNull vd.voter_email
      voter_name := orNull vd.voter_name })

/-- `submitVote` of `lib/actions` — the same guard sequence is implemented
verbatim by the route handler `POST /api/polls/[id]/vote`, so this embedding
covers both.  Returns the tagged outcome and the resulting datastore state. -/
def submitVote (db : DB) (f : VoteFaults) (user : Option Nat) (vd : VoteData)
    (now : Int) : Except VoteError Unit × DB :=
  match (if f.pollQueryFails then none else findPoll db vd.poll_id) with
  | none => (.error .notFound, db)
  | some poll =>
    if poll.status ≠ "active" then (.error .pollInactive, db)
    else if isExpired poll.expires_at now then (.error .pollExpired, db)
    else if f.optionsQueryFails = true ∨
        (fetchedMatchingOptions db vd).length ≠ vd.option_ids.length then
      (.error .invalidOptions, db)
    else if dupRejected db f user vd poll then (.error .alreadyVoted, db)
    else if f.insertFails then (.error .writeFailed, db)
    else (.ok (), { db with votes := db.votes ++ newVoteRows user vd })

/-- The poll create/update payload
(`{title, description?, is_public?, allow_multiple_votes?, expires_at?, options}`). -/
structure CreatePollData where
  title : String
  description : Option String
  is_public : Option Bool
  allow_multiple_votes : Option Bool
  expires_at : Option Int
  options : List String
  deriving Repr, DecidableEq

/-- The error taxonomy of the poll lifecycle flows. -/
inductive ActionError where
  | unauthenticated
  | profileMissing
  | notFound
  | notOwner
  | pollWriteFailed
  | optionsWriteFailed
  | optionsDeleteFailed
  | pollDeleteFailed
  deriving Repr, DecidableEq

/-- Which of the datastore calls issued by `createPoll` fail remotely.
The compensating delete's result is ignored by the code, but its flag
records whether the datastore executed it. -/
structure CreateFaults where
  authFails : Bool
  profileQueryFails : Bool
  pollInsertFails : Bool
  optionsInsertFails : Bool
  compensateFails : Bool
  deriving Repr, DecidableEq

/-- The option rows built from the payload: one per provided option text,
trimmed, with 1-based sequential `order_index` matching input order.  Ids
are drawn from the datastore's generator starting at `base`. -/
def optionRowsFor (base : Nat) (pid : Nat) (texts : List String) : List PollOption :=
  texts.enum.map (fun it =>
    { id := base + it.fst
      poll_id := pid
      text := it.snd.trim
      order_index := it.fst + 1 })

/-- The poll row `createPoll` inserts (defaults applied: public, single
vote, status defaulting to active in the schema). -/
def newPollRow (db : DB) (uid : Nat) (formData : CreatePollData) : Poll :=
  { id := db.nextId
    title := formData.title
    description := formData.description
    status := "active"
    is_public := formData.is_public.getD true
    allow_multiple_votes := formData.allow_multiple_votes.getD false
    expires_at := formData.expires_at
    created_by := uid }

/-- `createPoll` of `lib/actions` — the same sequence is implemented by the
route handler `POST /api/polls`.  Auth check, profile check, poll insert,
options insert; on options-insert failure the just-created poll row is
deleted (result unchecked) and the failure is reported. -/
def createPoll (db : DB) (f : CreateFaults) (user : Option Nat)
    (formData : CreatePollData) : Except ActionError Nat × DB :=
  match (if f.authFails then none else user) with
  | none => (.error .unauthenticated, db)
  | some uid =>
    if f.profileQueryFails = true ∨ (db.profiles.find? (fun pr => pr.id == uid)) = none then
      (.error .profileMissing, db)
    else if f.pollInsertFails then (.error .pollWriteFailed, db)
    else
      let pid := db.nextId
      let poll : Poll := newPollRow db uid formData
      let db1 : DB := { db with polls := db.polls ++ [poll], nextId := db.nextId + 1 }
      if f.optionsInsertFails then
        let db2 : DB :=
          if f.compensateFails then db1
          else { db1 with polls := db1.polls.filter (fun p => p.id != pid) }
        (.error .optionsWriteFailed, db2)
      else
        (.ok pid,
          { db1 with
            poll_options := db1.poll_options ++ optionRowsFor db1.nextId pid formData.options
            nextId := db1.nextId + formData.options.length })

/-- Deleting the option rows of a poll; the datastore cascades the delete to
vote rows referencing the deleted options (`ON DELETE CASCADE`). -/
def cascadeDeleteOptions (db : DB) (pid : Nat) : DB :=
  let removedIds := (db.poll_options.filter (fun o => o.poll_id == pid)).map (fun o => o.id)
  { db with
    poll_options := db.poll_options.filter (fun o => o.poll_id != pid)
    votes := db.votes.filter (fun v => !(removedIds.contains v.option_id)) }

/-- Which of the datastore calls issued by `updatePoll` fail remotely. -/
structure UpdateFaults where
  authFails : Bool
  pollCheckFails : Bool
  updateFails : Bool
  deleteOptionsFails : Bool
  optionsInsertFails : Bool
  deriving Repr, DecidableEq

/-- The scalar-field update `updatePoll` sends to the `polls` table. -/
def applyScalarUpdate (formData : CreatePollData) (p : Poll) : Poll :=
  { p with
    title := formData.title
    description := formData.description
    is_public := formData.is_public.getD true
    allow_multiple_votes := formData.allow_multiple_votes.getD false
    expires_at := formData.expires_at }

/-- `updatePoll` of `lib/actions`: auth check, ownership check, scalar-field
update, unconditional delete of the poll's option rows, insert of the
replacement set.  No step is compensated on a later failure. -/
def updatePoll (db : DB) (f : UpdateFaults) (user : Option Nat) (pollId : Nat)
    (formData : CreatePollData) : Except ActionError Unit × DB :=
  match (if f.authFails then none else user) with
  | none => (.error .unauthenticated, db)
  | some uid =>
    match (if f.pollCheckFails then none else findPoll db pollId) with
    | none => (.error .notFound, db)
    | some existingPoll =>
      if existingPoll.created_by ≠ uid then (.error .notOwner, db)
      else if f.updateFails then (.error .pollWriteFailed, db)
      else
        let db1 : DB :=
          { db with
            polls := db.polls.map (fun p =>
              if p.id == pollId then applyScalarUpdate formData p else p) }
        if f.deleteOptionsFails then (.error .optionsDeleteFailed, db1)
        else
          let db2 := cascadeDeleteOptions db1 pollId
          if f.optionsInsertFails then (.error .optionsWriteFailed, db2)
          else
            (.ok (),
              { db2 with
                poll_options := db2.poll_options ++ optionRowsFor db2.nextId pollId formData.options
                nextId := db2.nextId + formData.options.length })

/-- Which of the datastore calls issued by `deletePoll` fail remotely. -/
structure DeleteFaults where
  authFails : Bool
  pollCheckFails : Bool
  optionsDeleteFails : Bool
  pollDeleteFails : Bool
  deriving Repr, DecidableEq

/-- `deletePoll` of `lib/actions`: auth check, ownership check, delete of the
poll's option rows (cascading to their votes), delete of the poll row
(cascading to its remaining votes). -/
def deletePoll (db : DB) (f : DeleteFaults) (user : Option Nat) (pollId : Nat) :
    Except ActionError Unit × DB :=
  match (if f.authFails then none else user) with
  | none => (.error .unauthenticated, db)
  | some uid =>
    match (if f.pollCheckFails then none else findPoll db pollId) with
    | none => (.error .notFound, db)
    | some existingPoll =>
      if existingPoll.created_by ≠ uid then (.error .notOwner, db)
      else if f.optionsDeleteFails then (.error .optionsDeleteFailed, db)
      else
        let db1 := cascadeDeleteOptions db pollId
        if f.pollDeleteFails then (.error .pollDeleteFailed, db1)
        else
          (.ok (),
            { db1 with
              polls := db1.polls.filter (fun p => p.id != pollId)
              votes := db1.votes.filter (fun v => v.poll_id != pollId) })

/-- One row of the `get_poll_results` result set. -/
structure ResultRow where
  option_id : Nat
  option_text : String
  vote_count : Nat
  percentage : ℚ
  deriving Repr, DecidableEq

/-- `ROUND(q, 2)` of SQL numerics (half away from zero; all inputs here are
non-negative, so half up). -/
def roundTo2 (q : ℚ) : ℚ := ((⌊q * 100 + 1 / 2⌋ : ℤ) : ℚ) / 100

/-- `SELECT COUNT(*) FROM public.votes WHERE poll_id = poll_uuid`. -/
def pollTotalVotes (db : DB) (pid : Nat) : Nat :=
  (db.votes.filter (fun v => v.poll_id == pid)).length

/-- `COUNT(v.id)` of the left join `ON po.id = v.option_id` for one option. -/
def optionVoteCount (db : DB) (oid : Nat) : Nat :=
  (db.votes.filter (fun v => v.option_id == oid)).length

/-- The SQL function `get_poll_results(poll_uuid)`: every option of the poll
(left join — options without votes included), with its vote count and its
percentage of the poll's total votes, guarded against a zero total;
`ORDER BY po.order_index` (the `created_at` tiebreak is not modelled; the
sort is stable so insertion order breaks ties). -/
def get_poll_results (db : DB) (poll_uuid : Nat) : List ResultRow :=
  let total := pollTotalVotes db poll_uuid
  let opts := (db.poll_options.filter (fun o => o.poll_id == poll_uuid)).mergeSort
    (fun a b => a.order_index ≤ b.order_index)
  opts.map (fun o =>
    let c := optionVoteCount db o.id
    { option_id := o.id
      option_text := o.text
      vote_count := c
      percentage := if 0 < total then roundTo2 ((c : ℚ) / (total : ℚ) * 100) else 0 })

/-- Schema invariant: `poll_options.id` is a primary key. -/
def OptionIdsNodup (db : DB) : Prop :=
  (db.poll_options.map (fun o => o.id)).Nodup

/-- Referential invariant maintained by the flows (the membership check of
`submitVote` and the foreign keys): every vote's option belongs to the
vote's poll. -/
def VotesConsistent (db : DB) : Prop :=
  ∀ v ∈ db.votes, ∃ o ∈ db.poll_options, o.id = v.option_id ∧ o.poll_id = v.poll_id

/-- A concrete datastore used to instantiate the theorems: one active poll
(id 10, single-vote, owned by profile 1) with two options, and one existing
vote by profile 2 on option 21. -/
def sampleDB : DB :=
  { profiles := [⟨1⟩, ⟨2⟩]
    polls := [{ id := 10, title := "t", description := none, status := "active",
                is_public := true, allow_multiple_votes := false,
                expires_at := none, created_by := 1 }]
    poll_options := [{ id := 21, poll_id := 10, text := "A", order_index := 1 },
                     { id := 22, poll_id := 10, text := "B", order_index := 2 }]
    votes := [{ poll_id := 10, option_id := 21, voter_id := some 2,
                voter_email := none, voter_name := none }]
    nextId := 100 }

/-- The poll row of `sampleDB`. -/
def samplePoll : Poll :=
  { id := 10, title := "t", description := none, status := "active",
    is_public := true, allow_multiple_votes := false,
    expires_at := none, created_by := 1 }

/-- Like `sampleDB` but with the multi-vote flag enabled on the poll. -/
def sampleDBMulti : DB :=
  { sampleDB with polls := [{ samplePoll with allow_multiple_votes := true }] }

/-- Like `sampleDB` but with an expiry instant of 50 on the poll. -/
def expiryDB : DB :=
  { sampleDB with polls := [{ samplePoll with expires_at := some 50 }] }

/-- No datastore call fails. -/
def noVoteFaults : VoteFaults := ⟨false, false, false, false⟩


/-- C1: for a vote submission by an authenticated caller on a poll whose
multi-vote flag is false, if at least one vote row by that caller's identity
already exists for that poll (and the duplicate-vote lookup succeeds), the
submission fails with AlreadyVoted and the datastore is unchanged; if the
multi-vote flag is true, the same caller's submission is never rejected by
the duplicate-vote check. -/
theorem C1_duplicate_vote_guard (db : DB) (f : VoteFaults) (u : Nat)
    (vd : VoteData) (now : Int) (poll : Poll)
    (hpq : f.pollQueryFails = false)
    (hfind : findPoll db vd.poll_id = some poll)
    (hactive : poll.status = "active")
    (hexp : isExpired poll.expires_at now = false)
    (hopts : f.optionsQueryFails = false)
    (hlen : (fetchedMatchingOptions db vd).length = vd.option_ids.length)
    (hvc : f.voteCheckFails = false)
    (hvoted : 0 < (db.votes.filter
      (fun v => v.poll_id == vd.poll_id && v.voter_id == some u)).length) :
    (poll.allow_multiple_votes = false →
      submitVote db f (some u) vd now = (.error .alreadyVoted, db))
    ∧ (poll.allow_multiple_votes = true →
      (submitVote db f (some u) vd now).1 ≠ .error .alreadyVoted) := by
  constructor
  · intro hm
    simp [submitVote, dupRejected, hpq, hfind, hactive, hexp, hopts, hlen, hvc, hvoted, hm]
  · intro hm
    simp only [submitVote, hpq, Bool.false_eq_true, if_false, hfind, hactive]
    simp only [dupRejected, hvc, Bool.false_eq_true, if_false, hm]
    simp [hexp, hopts, hlen]
    cases hins : f.insertFails <;> simp

/-- Witness for C1 at `sampleDB`: profile 2 has already voted on single-vote
poll 10, so a second submission fails with AlreadyVoted; on the multi-vote
variant the same submission is not rejected by the duplicate-vote check. -/
theorem C1_duplicate_vote_guard_witness :
    submitVote sampleDB noVoteFaults (some 2) ⟨10, [22], none, none⟩ 0
      = (.error .alreadyVoted, sampleDB)
    ∧ (submitVote sampleDBMulti noVoteFaults (some 2) ⟨10, [22], none, none⟩ 0).1
      ≠ .error .alreadyVoted :=
  ⟨(C1_duplicate_vote_guard sampleDB noVoteFaults 2 ⟨10, [22], none, none⟩ 0
      samplePoll rfl rfl rfl rfl rfl rfl rfl (by decide)).1 rfl,
   (C1_duplicate_vote_guard sampleDBMulti noVoteFaults 2 ⟨10, [22], none, none⟩ 0
      { samplePoll with allow_multiple_votes := true }
      rfl rfl rfl rfl rfl rfl rfl (by decide)).2 rfl⟩

/-- C2 counterexample: on `expiryDB` the poll exists, is active, and its
expiry instant (50) equals the current time, yet the submission succeeds
instead of failing with PollExpired — the code compares with strict `<`. -/
theorem C2_expiry_boundary_counterexample :
    findPoll expiryDB 10 = some { samplePoll with expires_at := some 50 }
    ∧ (samplePoll.status = "active")
    ∧ (submitVote expiryDB noVoteFaults (some 1) ⟨10, [22], none, none⟩ 50).1
      = .ok () :=
  ⟨rfl, rfl, rfl⟩

/-- C2 (amended): a vote submission against a found, active poll with a
non-null expiry instant fails with PollExpired exactly when the expiry
instant is strictly before the current time; at the boundary where the
expiry instant equals the current time the expiry check passes and the
submission is never rejected with PollExpired. -/
theorem C2_expiry_strict (db : DB) (f : VoteFaults) (user : Option Nat)
    (vd : VoteData) (now : Int) (poll : Poll) (t : Int)
    (hpq : f.pollQueryFails = false)
    (hfind : findPoll db vd.poll_id = some poll)
    (hactive : poll.status = "active")
    (hexp : poll.expires_at = some t) :
    (t < now → submitVote db f user vd now = (.error .pollExpired, db))
    ∧ (now ≤ t → (submitVote db f user vd now).1 ≠ .error .pollExpired) := by
  constructor
  · intro hlt
    simp [submitVote, hpq, hfind, hactive, isExpired, hexp, hlt]
  · intro hle
    have hnotlt : ¬ t < now := not_lt.mpr hle
    simp only [submitVote, hpq, Bool.false_eq_true, if_false, hfind]
    rw [if_neg (by simp [hactive])]
    rw [if_neg (by simp [isExpired, hexp, hnotlt])]
    split
    · simp
    split
    · simp
    split <;> simp

/-- Witness for C2 (amended): with expiry 50 and current time 100 the
submission fails with PollExpired; with current time 50 (the boundary) it is
not rejected with PollExpired. -/
theorem C2_expiry_strict_witness :
    submitVote expiryDB noVoteFaults (some 1) ⟨10, [22], none, none⟩ 100
      = (.error .pollExpired, expiryDB)
    ∧ (submitVote expiryDB noVoteFaults (some 1) ⟨10, [22], none, none⟩ 50).1
      ≠ .error .pollExpired :=
  ⟨(C2_expiry_strict expiryDB noVoteFaults (some 1) ⟨10, [22], none, none⟩ 100
      { samplePoll with expires_at := some 50 } 50 rfl rfl rfl rfl).1 (by decide),
   (C2_expiry_strict expiryDB noVoteFaults (some 1) ⟨10, [22], none, none⟩ 50
      { samplePoll with expires_at := some 50 } 50 rfl rfl rfl rfl).2 (by decide)⟩

/-- If some requested option id does not belong to the target poll, the
fetched matching option set is strictly smaller than the request list. -/
theorem fetchedMatchingOptions_length_lt (db : DB) (vd : VoteData) (x : Nat)
    (hnd : OptionIdsNodup db)
    (hx : x ∈ vd.option_ids)
    (hnotin : ∀ o ∈ db.poll_options, o.poll_id = vd.poll_id → o.id ≠ x) :
    (fetchedMatchingOptions db vd).length < vd.option_ids.length := by
  classical
  set l := (fetchedMatchingOptions db vd).map (fun o => o.id) with hl
  have hsub : List.Sublist (fetchedMatchingOptions db vd) db.poll_options := by
    unfold fetchedMatchingOptions
    exact List.filter_sublist _
  have hndl : l.Nodup := List.Nodup.sublist (hsub.map (fun o => o.id)) hnd
  have hsubset : ∀ a ∈ l, a ∈ vd.option_ids := by
    intro a ha
    rcases List.mem_map.mp ha with ⟨o, ho, rfl⟩
    have hf := List.of_mem_filter ho
    simp only [Bool.and_eq_true, beq_iff_eq] at hf
    have := hf.2
    simpa [List.contains, List.elem_iff] using this
  have hxl : x ∉ l := by
    intro hmem
    rcases List.mem_map.mp hmem with ⟨o, ho, hoid⟩
    have hf := List.of_mem_filter ho
    have hmem' := List.mem_of_mem_filter ho
    simp only [Bool.and_eq_true, beq_iff_eq] at hf
    exact hnotin o hmem' hf.1 hoid
  have hcons : (x :: l).Nodup := List.nodup_cons.mpr ⟨hxl, hndl⟩
  have hsub2 : (x :: l) ⊆ vd.option_ids := by
    intro a ha
    rcases List.mem_cons.mp ha with rfl | ha
    · exact hx
    · exact hsubset a ha
  have hle := (List.subperm_of_subset hcons hsub2).length_le
  have hlen : l.length = (fetchedMatchingOptions db vd).length := by
    simp [hl]
  simp only [List.length_cons] at hle
  omega

/-- C5: once a vote submission reaches the option-membership check (poll
found, active, not expired), a mismatch between the fetched matching option
set's size and the requested list's size fails with InvalidOptions and
leaves the datastore unchanged; in particular, a request naming any option
id not belonging to the target poll fails with InvalidOptions, for every
caller identity. -/
theorem C5_option_membership (db : DB) (f : VoteFaults) (user : Option Nat)
    (vd : VoteData) (now : Int) (poll : Poll)
    (hpq : f.pollQueryFails = false)
    (hfind : findPoll db vd.poll_id = some poll)
    (hactive : poll.status = "active")
    (hexp : isExpired poll.expires_at now = false) :
    ((fetchedMatchingOptions db vd).length ≠ vd.option_ids.length →
      submitVote db f user vd now = (.error .invalidOptions, db))
    ∧ (OptionIdsNodup db →
      ∀ x ∈ vd.option_ids,
        (∀ o ∈ db.poll_options, o.poll_id = vd.poll_id → o.id ≠ x) →
        submitVote db f user vd now = (.error .invalidOptions, db)) := by
  have base : ∀ _ : (fetchedMatchingOptions db vd).length ≠ vd.option_ids.length,
      submitVote db f user vd now = (.error .invalidOptions, db) := by
    intro hlen
    simp only [submitVote, hpq, Bool.false_eq_true, if_false, hfind]
    rw [if_neg (by simp [hactive])]
    rw [if_neg (by simp [hexp])]
    rw [if_pos (Or.inr hlen)]
  refine ⟨base, ?_⟩
  intro hnd x hx hnotin
  exact base (Nat.ne_of_lt (fetchedMatchingOptions_length_lt db vd x hnd hx hnotin))

/-- Witness for C5 at `sampleDB`: requesting option id 99, which belongs to
no option of poll 10, fails with InvalidOptions for an anonymous caller. -/
theorem C5_option_membership_witness :
    submitVote sampleDB noVoteFaults none ⟨10, [99], none, none⟩ 0
      = (.error .invalidOptions, sampleDB) :=
  (C5_option_membership sampleDB noVoteFaults none ⟨10, [99], none, none⟩ 0
      samplePoll rfl rfl rfl rfl).2
    (by unfold OptionIdsNodup; decide) 99 (by decide) (by decide)

/-- C9: when the duplicate-vote lookup itself returns a datastore error,
`submitVote` only logs it and proceeds to insert the requested vote rows —
even for an authenticated caller who has in fact already voted on a
single-vote poll, the lookup failure never causes the submission to fail. -/
theorem C9_vote_check_error_ignored (db : DB) (f : VoteFaults) (u : Nat)
    (vd : VoteData) (now : Int) (poll : Poll)
    (hpq : f.pollQueryFails = false)
    (hfind : findPoll db vd.poll_id = some poll)
    (hactive : poll.status = "active")
    (hexp : isExpired poll.expires_at now = false)
    (hopts : f.optionsQueryFails = false)
    (hlen : (fetchedMatchingOptions db vd).length = vd.option_ids.length)
    (hvc : f.voteCheckFails = true)
    (_hvoted : 0 < (db.votes.filter
      (fun v => v.poll_id == vd.poll_id && v.voter_id == some u)).length)
    (_hmulti : poll.allow_multiple_votes = false)
    (hins : f.insertFails = false) :
    submitVote db f (some u) vd now
      = (.ok (), { db with votes := db.votes ++ newVoteRows (some u) vd }) := by
  simp only [submitVote, hpq, Bool.false_eq_true, if_false, hfind]
  rw [if_neg (by simp [hactive])]
  rw [if_neg (by simp [hexp])]
  rw [if_neg (by simp [hopts, hlen])]
  rw [if_neg (by simp [dupRejected, hvc])]
  rw [if_neg (by simp [hins])]

/-- Witness for C9 at `sampleDB`: profile 2 has already voted on single-vote
poll 10, but with the duplicate-vote lookup failing the second submission
succeeds and appends the new vote row. -/
theorem C9_vote_check_error_ignored_witness :
    submitVote sampleDB ⟨false, false, true, false⟩ (some 2)
        ⟨10, [22], none, none⟩ 0
      = (.ok (), { sampleDB with
          votes := sampleDB.votes ++ newVoteRows (some 2) ⟨10, [22], none, none⟩ }) :=
  C9_vote_check_error_ignored sampleDB ⟨false, false, true, false⟩ 2
    ⟨10, [22], none, none⟩ 0 samplePoll rfl rfl rfl rfl rfl rfl rfl
    (by decide) rfl rfl

/-- C10: a submission with an empty option_ids list against a found, active,
non-expired poll passes the option-membership size comparison vacuously
(0 = 0), inserts an empty batch, and returns success with the datastore
unchanged — provided the duplicate-vote guard does not reject the caller
and the (empty) insert is not refused. -/
theorem C10_empty_option_ids (db : DB) (f : VoteFaults) (user : Option Nat)
    (vd : VoteData) (now : Int) (poll : Poll)
    (hpq : f.pollQueryFails = false)
    (hfind : findPoll db vd.poll_id = some poll)
    (hactive : poll.status = "active")
    (hexp : isExpired poll.expires_at now = false)
    (hopts : f.optionsQueryFails = false)
    (hempty : vd.option_ids = [])
    (hdup : dupRejected db f user vd poll = false)
    (hins : f.insertFails = false) :
    submitVote db f user vd now = (.ok (), db) := by
  have hfetch : fetchedMatchingOptions db vd = [] := by
    simp [fetchedMatchingOptions, hempty]
  have hrows : newVoteRows user vd = [] := by
    simp [newVoteRows, hempty]
  simp only [submitVote, hpq, Bool.false_eq_true, if_false, hfind]
  rw [if_neg (by simp [hactive])]
  rw [if_neg (by simp [hexp])]
  rw [if_neg (by simp [hopts, hfetch, hempty])]
  rw [if_neg (by simp [hdup])]
  rw [if_neg (by simp [hins])]
  simp [hrows]

/-- Witness for C10 at `sampleDB`: an anonymous submission with no selected
options on active poll 10 succeeds and records nothing. -/
theorem C10_empty_option_ids_witness :
    submitVote sampleDB noVoteFaults none ⟨10, [], none, none⟩ 0
      = (.ok (), sampleDB) :=
  C10_empty_option_ids sampleDB noVoteFaults none ⟨10, [], none, none⟩ 0
    samplePoll rfl rfl rfl rfl rfl rfl rfl rfl

/-- C7: an update or delete request on a poll by an authenticated caller who
is not the poll's owner fails with NotOwner and leaves every table of the
datastore unchanged, for every request payload. -/
theorem C7_not_owner (db : DB) (fu : UpdateFaults) (fd : DeleteFaults)
    (u : Nat) (pollId : Nat) (formData : CreatePollData) (poll : Poll)
    (hau : fu.authFails = false) (had : fd.authFails = false)
    (hcu : fu.pollCheckFails = false) (hcd : fd.pollCheckFails = false)
    (hfind : findPoll db pollId = some poll)
    (hown : poll.created_by ≠ u) :
    updatePoll db fu (some u) pollId formData = (.error .notOwner, db)
    ∧ deletePoll db fd (some u) pollId = (.error .notOwner, db) := by
  constructor
  · simp only [updatePoll, hau, Bool.false_eq_true, if_false, hcu, hfind]
    rw [if_pos hown]
  · simp only [deletePoll, had, Bool.false_eq_true, if_false, hcd, hfind]
    rw [if_pos hown]

/-- Witness for C7 at `sampleDB`: poll 10 is owned by profile 1, so profile 2
can neither update nor delete it. -/
theorem C7_not_owner_witness :
    updatePoll sampleDB ⟨false, false, false, false, false⟩ (some 2) 10
        ⟨"new", none, none, none, none, ["X"]⟩ = (.error .notOwner, sampleDB)
    ∧ deletePoll sampleDB ⟨false, false, false, false⟩ (some 2) 10
        = (.error .notOwner, sampleDB) :=
  C7_not_owner sampleDB ⟨false, false, false, false, false⟩
    ⟨false, false, false, false⟩ 2 10 ⟨"new", none, none, none, none, ["X"]⟩
    samplePoll rfl rfl rfl rfl rfl (by decide)

/-- Every row built by `optionRowsFor` carries the target poll id, so the
per-poll filter keeps them all. -/
theorem filter_optionRowsFor (base pid : Nat) (texts : List String) :
    (optionRowsFor base pid texts).filter (fun o => o.poll_id == pid)
      = optionRowsFor base pid texts := by
  rw [List.filter_eq_self]
  intro o ho
  rcases List.mem_map.mp ho with ⟨it, _, rfl⟩
  simp

/-- The texts and order indexes of the rows built by `optionRowsFor`:
trimmed input texts with 1-based sequential order. -/
theorem optionRowsFor_text_order (base pid : Nat) (texts : List String) :
    (optionRowsFor base pid texts).map (fun o => (o.text, o.order_index))
      = texts.enum.map (fun it => (it.snd.trim, it.fst + 1)) := by
  simp only [optionRowsFor, List.map_map]
  rfl

/-- Reduction of `createPoll` on the path where the option insert fails and
the compensating delete is executed. -/
theorem createPoll_red_fail (db : DB) (f : CreateFaults) (u : Nat)
    (formData : CreatePollData)
    (ha : f.authFails = false) (hp : f.profileQueryFails = false)
    (hprof : db.profiles.find? (fun pr => pr.id == u) ≠ none)
    (hpi : f.pollInsertFails = false)
    (hoi : f.optionsInsertFails = true) (hcomp : f.compensateFails = false) :
    createPoll db f (some u) formData
      = (.error .optionsWriteFailed,
         { db with
           polls := (db.polls ++ [newPollRow db u formData]).filter
             (fun p => p.id != db.nextId)
           nextId := db.nextId + 1 }) := by
  simp [createPoll, ha, hp, hprof, hpi, hoi, hcomp]

/-- Reduction of `createPoll` on the all-success path. -/
theorem createPoll_red_ok (db : DB) (f : CreateFaults) (u : Nat)
    (formData : CreatePollData)
    (ha : f.authFails = false) (hp : f.profileQueryFails = false)
    (hprof : db.profiles.find? (fun pr => pr.id == u) ≠ none)
    (hpi : f.pollInsertFails = false)
    (hoi : f.optionsInsertFails = false) :
    createPoll db f (some u) formData
      = (.ok db.nextId,
         { db with
           polls := db.polls ++ [newPollRow db u formData]
           poll_options := db.poll_options
             ++ optionRowsFor (db.nextId + 1) db.nextId formData.options
           nextId := db.nextId + 1 + formData.options.length }) := by
  simp [createPoll, ha, hp, hprof, hpi, hoi]

/-- C6: for an authenticated caller with an existing profile, if the option
insert of `createPoll` fails after the poll row was inserted, the executed
compensating delete removes the just-created poll row (the polls table is
restored) and the call reports failure; on success, the new poll's option
rows are exactly one per provided option text with 1-based sequential order
matching input order. -/
theorem C6_create_compensation (db : DB) (f : CreateFaults) (u : Nat)
    (formData : CreatePollData)
    (ha : f.authFails = false)
    (hp : f.profileQueryFails = false)
    (hprof : db.profiles.find? (fun pr => pr.id == u) ≠ none)
    (hpi : f.pollInsertFails = false)
    (hfreshPolls : ∀ p ∈ db.polls, p.id ≠ db.nextId)
    (hfreshOpts : ∀ o ∈ db.poll_options, o.poll_id ≠ db.nextId) :
    (f.optionsInsertFails = true → f.compensateFails = false →
      (createPoll db f (some u) formData).1 = .error .optionsWriteFailed
      ∧ (createPoll db f (some u) formData).2.polls = db.polls)
    ∧ (f.optionsInsertFails = false →
      (createPoll db f (some u) formData).1 = .ok db.nextId
      ∧ ((createPoll db f (some u) formData).2.poll_options.filter
          (fun o => o.poll_id == db.nextId)).map (fun o => (o.text, o.order_index))
        = formData.options.enum.map (fun it => (it.snd.trim, it.fst + 1))) := by
  constructor
  · intro hoi hcomp
    rw [createPoll_red_fail db f u formData ha hp hprof hpi hoi hcomp]
    refine ⟨rfl, ?_⟩
    have h1 : db.polls.filter (fun p => p.id != db.nextId) = db.polls := by
      rw [List.filter_eq_self]
      intro p hp2
      simpa using hfreshPolls p hp2
    have h2 : [newPollRow db u formData].filter (fun p => p.id != db.nextId)
        = [] := by
      simp [newPollRow]
    simp [List.filter_append, h1, h2]
  · intro hoi
    rw [createPoll_red_ok db f u formData ha hp hprof hpi hoi]
    refine ⟨rfl, ?_⟩
    have h1 : db.poll_options.filter (fun o => o.poll_id == db.nextId) = [] := by
      rw [List.filter_eq_nil_iff]
      intro o ho
      simpa using hfreshOpts o ho
    simp only [List.filter_append, h1, List.nil_append,
      filter_optionRowsFor, optionRowsFor_text_order]

/-- Witness for C6 at `sampleDB`: creating a two-option poll as profile 1
rolls the poll row back when the option insert fails, and on success stores
the trimmed texts with orders 1 and 2. -/
theorem C6_create_compensation_witness :
    ((createPoll sampleDB ⟨false, false, false, true, false⟩ (some 1)
        ⟨"q", none, none, none, none, [" X ", "Y"]⟩).1
      = .error .optionsWriteFailed
    ∧ (createPoll sampleDB ⟨false, false, false, true, false⟩ (some 1)
        ⟨"q", none, none, none, none, [" X ", "Y"]⟩).2.polls = sampleDB.polls)
    ∧ ((createPoll sampleDB ⟨false, false, false, false, false⟩ (some 1)
        ⟨"q", none, none, none, none, [" X ", "Y"]⟩).1 = .ok sampleDB.nextId
    ∧ ((createPoll sampleDB ⟨false, false, false, false, false⟩ (some 1)
        ⟨"q", none, none, none, none, [" X ", "Y"]⟩).2.poll_options.filter
          (fun o => o.poll_id == sampleDB.nextId)).map
            (fun o => (o.text, o.order_index))
      = [(" X ".trim, 1), ("Y".trim, 2)]) :=
  ⟨(C6_create_compensation sampleDB ⟨false, false, false, true, false⟩ 1
      ⟨"q", none, none, none, none, [" X ", "Y"]⟩
      rfl rfl (by decide) rfl (by decide) (by decide)).1 rfl rfl,
   (C6_create_compensation sampleDB ⟨false, false, false, false, false⟩ 1
      ⟨"q", none, none, none, none, [" X ", "Y"]⟩
      rfl rfl (by decide) rfl (by decide) (by decide)).2 rfl⟩

/-- `find?` by id over the update-by-id map returns the updated row, for any
row update that preserves the id. -/
theorem find?_map_update (l : List Poll) (pid : Nat) (p : Poll)
    (upd : Poll → Poll) (hid : ∀ q, (upd q).id = q.id)
    (h : l.find? (fun q => q.id == pid) = some p) :
    (l.map (fun q => if q.id == pid then upd q else q)).find?
      (fun q => q.id == pid) = some (upd p) := by
  induction l with
  | nil => simp at h
  | cons a tl ih =>
    by_cases hc : a.id = pid
    · rw [List.find?_cons_of_pos _ (by simp [hc])] at h
      rw [List.map_cons, if_pos (by simp [hc]),
        List.find?_cons_of_pos _ (by simp [hid, hc])]
      simp only [Option.some.injEq] at h
      rw [h]
    · rw [List.find?_cons_of_neg _ (by simp [hc])] at h
      rw [List.map_cons, if_neg (by simp [hc]),
        List.find?_cons_of_neg _ (by simp [hc])]
      exact ih h

/-- Filtering for a poll id after filtering it away yields nothing. -/
theorem filter_pid_after_remove (l : List PollOption) (pid : Nat) :
    ((l.filter (fun o => o.poll_id != pid)).filter
      (fun o => o.poll_id == pid)) = [] := by
  induction l with
  | nil => rfl
  | cons a tl ih =>
    by_cases hc : a.poll_id = pid <;> simp [List.filter_cons, hc, ih]

/-- C8: when, during a poll update by the owner, the insert of the
replacement option set fails after the existing option rows were deleted,
the call reports failure but the poll's scalar-field update and the deletion
of all prior options persist: the poll row carries the new scalar fields and
has zero options, with no compensating action. -/
theorem C8_update_not_atomic (db : DB) (f : UpdateFaults) (u : Nat)
    (pollId : Nat) (formData : CreatePollData) (poll : Poll)
    (ha : f.authFails = false)
    (hc : f.pollCheckFails = false)
    (hfind : findPoll db pollId = some poll)
    (hown : poll.created_by = u)
    (hupd : f.updateFails = false)
    (hdel : f.deleteOptionsFails = false)
    (hins : f.optionsInsertFails = true) :
    (updatePoll db f (some u) pollId formData).1 = .error .optionsWriteFailed
    ∧ ((updatePoll db f (some u) pollId formData).2.poll_options.filter
        (fun o => o.poll_id == pollId)) = []
    ∧ findPoll (updatePoll db f (some u) pollId formData).2 pollId
        = some (applyScalarUpdate formData poll) := by
  have hred : updatePoll db f (some u) pollId formData
      = (.error .optionsWriteFailed,
         cascadeDeleteOptions
           { db with polls := db.polls.map (fun p =>
               if p.id == pollId then applyScalarUpdate formData p else p) }
           pollId) := by
    simp only [updatePoll, ha, Bool.false_eq_true, if_false, hc, hfind]
    rw [if_neg (by simp [hown])]
    rw [if_neg (by simp [hupd])]
    rw [if_neg (by simp [hdel])]
    rw [if_pos (by simp [hins])]
  rw [hred]
  refine ⟨rfl, ?_, ?_⟩
  · exact filter_pid_after_remove _ pollId
  · exact find?_map_update db.polls pollId poll (applyScalarUpdate formData)
      (fun q => rfl) hfind

/-- Witness for C8 at `sampleDB`: owner 1 updates poll 10 and the
replacement-option insert fails; the call reports failure, the poll has no
options left, and the poll row carries the new title. -/
theorem C8_update_not_atomic_witness :
    (updatePoll sampleDB ⟨false, false, false, false, true⟩ (some 1) 10
        ⟨"new", none, none, none, none, ["X"]⟩).1 = .error .optionsWriteFailed
    ∧ ((updatePoll sampleDB ⟨false, false, false, false, true⟩ (some 1) 10
        ⟨"new", none, none, none, none, ["X"]⟩).2.poll_options.filter
          (fun o => o.poll_id == 10)) = []
    ∧ findPoll (updatePoll sampleDB ⟨false, false, false, false, true⟩ (some 1) 10
        ⟨"new", none, none, none, none, ["X"]⟩).2 10
      = some (applyScalarUpdate ⟨"new", none, none, none, none, ["X"]⟩ samplePoll) :=
  C8_update_not_atomic sampleDB ⟨false, false, false, false, true⟩ 1 10
    ⟨"new", none, none, none, none, ["X"]⟩ samplePoll rfl rfl rfl rfl rfl rfl rfl

/-- Sums of pointwise sums over a mapped list split. -/
theorem sum_map_add_nat (l : List PollOption) (f g : PollOption → Nat) :
    (l.map (fun o => f o + g o)).sum = (l.map f).sum + (l.map g).sum := by
  induction l with
  | nil => rfl
  | cons a tl ih =>
    simp only [List.map_cons, List.sum_cons, ih]
    omega

/-- Summing an indicator over a list counts the satisfying elements. -/
theorem sum_map_ite_one_nat (l : List PollOption) (p : PollOption → Bool) :
    (l.map (fun o => if p o then 1 else 0)).sum = l.countP p := by
  induction l with
  | nil => rfl
  | cons a tl ih =>
    by_cases hc : p a <;> simp [List.countP_cons, hc, ih, Nat.add_comm]

/-- If each vote matches exactly one option of the list when it belongs to
the poll and none otherwise, the per-option match counts sum to the count of
the poll's votes. -/
theorem sum_option_counts (pid : Nat) (opts : List PollOption) (vs : List Vote)
    (h : ∀ v ∈ vs, (opts.countP (fun o => v.option_id == o.id))
        = if v.poll_id = pid then 1 else 0) :
    (opts.map (fun o => (vs.filter (fun v => v.option_id == o.id)).length)).sum
      = (vs.filter (fun v => v.poll_id == pid)).length := by
  induction vs with
  | nil => simp
  | cons v tl ih =>
    have hv := h v (List.mem_cons_self v tl)
    have htl := ih (fun w hw => h w (List.mem_cons_of_mem v hw))
    have hmap : opts.map
          (fun o => ((v :: tl).filter (fun w => w.option_id == o.id)).length)
        = opts.map (fun o => (if v.option_id == o.id then 1 else 0)
            + (tl.filter (fun w => w.option_id == o.id)).length) := by
      apply List.map_congr_left
      intro o _
      by_cases hc : v.option_id = o.id
      · simp [List.filter_cons, hc]
        omega
      · simp [List.filter_cons, hc]
    rw [hmap, sum_map_add_nat, htl, sum_map_ite_one_nat, hv]
    by_cases hp : v.poll_id = pid <;> simp [List.filter_cons, hp, Nat.add_comm]

/-- In a list of options with pairwise distinct ids, exactly one entry
matches the id of a member. -/
theorem countP_beq_id_eq_one (l : List PollOption)
    (hnd : (l.map (fun o => o.id)).Nodup) (o : PollOption) (ho : o ∈ l) :
    l.countP (fun x => o.id == x.id) = 1 := by
  induction l with
  | nil => simp at ho
  | cons a tl ih =>
    simp only [List.map_cons, List.nodup_cons] at hnd
    rcases hnd with ⟨hna, hnd'⟩
    rcases List.mem_cons.mp ho with rfl | hmem
    · rw [List.countP_cons]
      have h0 : tl.countP (fun x => o.id == x.id) = 0 := by
        rw [List.countP_eq_zero]
        intro x hx hbeq
        rw [beq_iff_eq] at hbeq
        exact hna (hbeq ▸ List.mem_map_of_mem (fun o => o.id) hx)
      simp [h0]
    · rw [List.countP_cons]
      have hne : (o.id == a.id) = false := by
        rw [beq_eq_false_iff_ne]
        intro heq
        exact hna (heq ▸ List.mem_map_of_mem (fun o => o.id) hmem)
      simp [ih hnd' hmem, hne]

/-- Under the schema invariants, a vote matches exactly one option of its
own poll's option set and no option of another poll's. -/
theorem countP_opts_of_consistent (db : DB) (pid : Nat)
    (hwf : VotesConsistent db) (hnd : OptionIdsNodup db)
    (v : Vote) (hv : v ∈ db.votes) :
    ((db.poll_options.filter (fun o => o.poll_id == pid)).countP
      (fun o => v.option_id == o.id))
    = if v.poll_id = pid then 1 else 0 := by
  rcases hwf v hv with ⟨o, ho, hoid, hopid⟩
  have hndfil : ((db.poll_options.filter
      (fun o => o.poll_id == pid)).map (fun o => o.id)).Nodup := by
    refine List.Nodup.sublist ?_ hnd
    exact List.Sublist.map _ (by
      unfold OptionIdsNodup at hnd
      exact List.filter_sublist _)
  by_cases hp : v.poll_id = pid
  · rw [if_pos hp]
    have hofil : o ∈ db.poll_options.filter (fun o => o.poll_id == pid) := by
      rw [List.mem_filter]
      exact ⟨ho, by simp [hopid, hp]⟩
    have := countP_beq_id_eq_one _ hndfil o hofil
    rw [← hoid]
    exact this
  · rw [if_neg hp]
    rw [List.countP_eq_zero]
    intro x hx hbeq
    rcases List.mem_filter.mp hx with ⟨hx', hpidx⟩
    rw [beq_iff_eq] at hbeq
    have hxo : x = o := by
      refine List.inj_on_of_nodup_map hnd hx' ho ?_
      rw [← hbeq, hoid]
    apply hp
    rw [← hopid, ← hxo]
    simpa using hpidx

/-- C4: the per-option vote counts reported by `get_poll_results` sum to the
total number of vote rows recorded for the poll, under the schema
invariants (distinct option ids; every vote's option belongs to its poll). -/
theorem C4_sum_counts (db : DB) (pid : Nat)
    (hwf : VotesConsistent db) (hnd : OptionIdsNodup db) :
    ((get_poll_results db pid).map (fun r => r.vote_count)).sum
      = pollTotalVotes db pid := by
  have hstep : (get_poll_results db pid).map (fun r => r.vote_count)
      = ((db.poll_options.filter (fun o => o.poll_id == pid)).mergeSort
          (fun a b => a.order_index ≤ b.order_index)).map
        (fun o => optionVoteCount db o.id) := by
    simp only [get_poll_results, List.map_map]
    rfl
  rw [hstep]
  have hperm : List.Perm
      (((db.poll_options.filter (fun o => o.poll_id == pid)).mergeSort
          (fun a b => a.order_index ≤ b.order_index)).map
        (fun o => optionVoteCount db o.id))
      ((db.poll_options.filter (fun o => o.poll_id == pid)).map
        (fun o => optionVoteCount db o.id)) :=
    List.Perm.map _ (List.mergeSort_perm _ _)
  rw [hperm.sum_eq]
  unfold optionVoteCount pollTotalVotes
  exact sum_option_counts pid _ _
    (fun v hv => countP_opts_of_consistent db pid hwf hnd v hv)

/-- C3: under the schema invariants, when a poll has zero vote rows
`get_poll_results` still returns a row for every option of the poll, each
with vote count 0 and percentage 0 (the zero total takes the guarded branch,
never dividing); when the total is positive every row's percentage equals
round(count / total × 100, 2). -/
theorem C3_results_zero_and_percentage (db : DB) (pid : Nat)
    (hwf : VotesConsistent db) (hnd : OptionIdsNodup db) :
    (pollTotalVotes db pid = 0 →
      (∀ o ∈ db.poll_options.filter (fun o => o.poll_id == pid),
        ∃ r ∈ get_poll_results db pid, r.option_id = o.id)
      ∧ (∀ r ∈ get_poll_results db pid, r.vote_count = 0 ∧ r.percentage = 0))
    ∧ (0 < pollTotalVotes db pid →
      ∀ r ∈ get_poll_results db pid,
        r.percentage
          = roundTo2 ((r.vote_count : ℚ) / (pollTotalVotes db pid : ℚ) * 100)) := by
  constructor
  · intro h0
    constructor
    · intro o ho
      simp only [get_poll_results]
      have hmem : o ∈ (db.poll_options.filter
          (fun o => o.poll_id == pid)).mergeSort
            (fun a b => a.order_index ≤ b.order_index) :=
        ((List.mergeSort_perm _ _).mem_iff).mpr ho
      exact ⟨_, List.mem_map_of_mem _ hmem, rfl⟩
    · intro r hr
      simp only [get_poll_results] at hr
      rcases List.mem_map.mp hr with ⟨o, homem, rfl⟩
      have hofil : o ∈ db.poll_options.filter (fun o => o.poll_id == pid) :=
        ((List.mergeSort_perm _ _).mem_iff).mp homem
      have hopid : o.poll_id = pid := by
        have := (List.mem_filter.mp hofil).2
        simpa using this
      have hfil0 : db.votes.filter (fun v => v.poll_id == pid) = [] := by
        have h0' : (db.votes.filter (fun v => v.poll_id == pid)).length = 0 := h0
        exact List.length_eq_zero.mp h0'
      have hcnt : db.votes.filter (fun v => v.option_id == o.id) = [] := by
        rw [List.filter_eq_nil_iff]
        intro v hvmem hbeq
        rw [beq_iff_eq] at hbeq
        rcases hwf v hvmem with ⟨o', ho', hoid, hopid'⟩
        have hoo : o' = o := by
          refine List.inj_on_of_nodup_map hnd ho'
            (List.mem_of_mem_filter hofil) ?_
          rw [hoid, hbeq]
        have hvp : v.poll_id = pid := by
          rw [← hopid', hoo]
          exact hopid
        have hvin : v ∈ db.votes.filter (fun v => v.poll_id == pid) :=
          List.mem_filter.mpr ⟨hvmem, by simp [hvp]⟩
        rw [hfil0] at hvin
        simp at hvin
      constructor
      · show optionVoteCount db o.id = 0
        unfold optionVoteCount
        rw [hcnt]
        rfl
      · show (if 0 < pollTotalVotes db pid
            then roundTo2 ((optionVoteCount db o.id : ℚ)
              / (pollTotalVotes db pid : ℚ) * 100) else 0) = 0
        rw [if_neg (by omega)]
  · intro h1 r hr
    simp only [get_poll_results] at hr
    rcases List.mem_map.mp hr with ⟨o, homem, rfl⟩
    show (if 0 < pollTotalVotes db pid
        then roundTo2 ((optionVoteCount db o.id : ℚ)
          / (pollTotalVotes db pid : ℚ) * 100) else 0)
      = roundTo2 ((optionVoteCount db o.id : ℚ)
          / (pollTotalVotes db pid : ℚ) * 100)
    rw [if_pos h1]

/-- Witness for C3: on `sampleDB` with its votes removed every reported row
has count 0 and percentage 0; on `sampleDB` itself (1 vote) every row's
percentage follows the rounding formula. -/
theorem C3_results_zero_and_percentage_witness :
    (∀ r ∈ get_poll_results { sampleDB with votes := [] } 10,
      r.vote_count = 0 ∧ r.percentage = 0)
    ∧ ∀ r ∈ get_poll_results sampleDB 10,
      r.percentage
        = roundTo2 ((r.vote_count : ℚ) / (pollTotalVotes sampleDB 10 : ℚ) * 100) :=
  ⟨((C3_results_zero_and_percentage { sampleDB with votes := [] } 10
      (by unfold VotesConsistent; decide)
      (by unfold OptionIdsNodup; decide)).1 (by decide)).2,
   (C3_results_zero_and_percentage sampleDB 10
      (by unfold VotesConsistent; decide)
      (by unfold OptionIdsNodup; decide)).2 (by decide)⟩

/-- Witness for C4 at `sampleDB`: the reported counts sum to the poll's one
recorded vote row. -/
theorem C4_sum_counts_witness :
    ((get_poll_results sampleDB 10).map (fun r => r.vote_count)).sum
      = pollTotalVotes sampleDB 10 :=
  C4_sum_counts sampleDB 10
    (by unfold VotesConsistent; decide) (by unfold OptionIdsNodup; decide)
